import Mathlib

/-!
# Verification of the mortar-luigi job lifecycle controller

Shallow embedding of `mortar/luigi/mortartask.py` and
`mortar/luigi/shellscript.py`, together with proofs of the behavioural
properties stated in the specification: idempotent resume, polling retry
bounds, cluster selection, token invariants, failure cleanup, and the shell
task's success gate.

External effects (the Mortar HTTP API, the token store, `time.sleep`,
logging) are modelled explicitly: API interactions are driven by a
pre-supplied list of fetch results and recorded as events, the token store
is a record of token contents, and every log/sleep call is emitted into an
event list.
-/

namespace MortarLuigi

/-! ## Status constants

The constants live in the external `mortar.api.v2` library (`jobs` and
`clusters` modules), outside this repository.  The controller only compares
them for (in)equality and membership, so they are modelled as distinct
strings; `COMPLETE_STATUSES` is the fixed set of terminal job statuses, of
which `STATUS_SUCCESS` is the success code and `STATUS_RUNNING` is
non-terminal. -/

def STATUS_SUCCESS : String := "success"

def STATUS_RUNNING : String := "running"

def STATUS_FAILURE : String := "failure"

def STATUS_STOPPED : String := "stopped"

/-- Terminal job statuses (`jobs.COMPLETE_STATUSES`).  Modelled from the
spec: the exact label set is defined by the remote API; the controller only
distinguishes members (terminal) from non-members. -/
def COMPLETE_STATUSES : List String := [STATUS_SUCCESS, STATUS_FAILURE, STATUS_STOPPED]

def CLUSTER_STATUS_RUNNING : String := "running"

def CLUSTER_TYPE_SINGLE_JOB : String := "single_job"

def CLUSTER_TYPE_PERSISTENT : String := "persistent"

/-! ## Data model -/

/-- A remote job record as returned by `jobs.get_job`.  Python dict `.get`
returns `None` for absent keys, hence the `Option` fields. -/
structure Job where
  status_code : Option String
  progress : Option Int
  status_description : String
  status_details : Option String
  error : Option String
deriving DecidableEq, Repr

/-- A cluster record from the `clusters.get_clusters` snapshot.
`size` is the result of Python `int(cluster['size'])`. -/
structure Cluster where
  cluster_id : String
  size : Int
  status_code : String
  cluster_type_code : String
  running_jobs : List String
deriving DecidableEq, Repr

/-- One result of a `jobs.get_job` call during polling: either a job record
or a raised exception (carrying its message). -/
inductive FetchResult where
  | ok (job : Job)
  | fetchError (e : String)
deriving DecidableEq, Repr

/-- Observable events of `_poll_job_completion`: the two `logger.info`
calls in the happy path, the failure log in the except-branch, and each
`time.sleep(self.job_polling_interval)` call. -/
inductive LogEvent where
  | statusChange (job_id : String) (status : Option String) (description : String)
  | progressLog (job_id : String) (p : Option Int)
  | fetchFailure (job_id : String) (e : String)
  | sleep
deriving DecidableEq, Repr

/-- The loop-carried variables of `_poll_job_completion`:
`current_job_status`, `current_progress` (both start as `None`) and
`exception_count` (starts at 0). -/
structure PollState where
  current_job_status : Option String
  current_progress : Option Int
  exception_count : Nat
deriving DecidableEq, Repr

/-- `⟨none, none, 0⟩`: the state at entry of `_poll_job_completion`. -/
def initPollState : PollState := ⟨none, none, 0⟩

/-- Outcome of the polling loop: returned job, propagated exception, or the
supplied list of fetch results was exhausted without reaching either (the
Python loop would still be running). -/
inductive PollResult where
  | done (job : Job)
  | raised (e : String)
  | outOfInput
deriving DecidableEq, Repr

/-- `MortarProjectTask._get_job_status_description`: appends
`' - ' + status_details` when `status_details` is truthy (non-`None`,
non-empty). -/
def _get_job_status_description (job : Job) : String :=
  match job.status_details with
  | some d => if d = "" then job.status_description else job.status_description ++ " - " ++ d
  | none => job.status_description

/-- Python `current_job_status in jobs.COMPLETE_STATUSES` (where
`None in list-of-strings` is `False`). -/
def optStatusComplete : Option String → Bool
  | some s => COMPLETE_STATUSES.contains s
  | none => false

/-- The progress variable after one successful fetch: updated only when the
job is in the running state and the fetched progress differs. -/
def pollNextProgress (job : Job) (current_progress : Option Int) : Option Int :=
  if job.status_code = some STATUS_RUNNING ∧ job.progress ≠ current_progress then job.progress
  else current_progress

/-- `MortarProjectTask._poll_job_completion`, driven by a list of fetch
results (one entry per `jobs.get_job` call; an empty list models the loop
still running).  Faithful to the source loop:

* a successful fetch logs a status transition when `new_job_status`
  differs from `current_job_status` (after which the two are equal either
  way, so the carried status is simply `new_job_status`), logs progress
  when the status is `STATUS_RUNNING` and progress changed, returns the job
  when the carried status is terminal, and otherwise resets
  `exception_count` to 0, sleeps and continues;
* a failed fetch increments `exception_count` and retries (with a log and
  a sleep) while `exception_count < num_polling_retries` held at entry,
  and re-raises otherwise. -/
def _poll_job_completion (job_id : String) (num_polling_retries : Nat) :
    List FetchResult → PollState → PollResult × List LogEvent
  | [], _ => (.outOfInput, [])
  | .ok job :: rest, st =>
    let new_job_status := job.status_code
    let statusLogs : List LogEvent :=
      if new_job_status ≠ st.current_job_status then
        [.statusChange job_id new_job_status (_get_job_status_description job)]
      else []
    let progressLogs : List LogEvent :=
      if new_job_status = some STATUS_RUNNING ∧ job.progress ≠ st.current_progress then
        [.progressLog job_id job.progress]
      else []
    let logs := statusLogs ++ progressLogs
    if optStatusComplete new_job_status then
      (.done job, logs)
    else
      let next := _poll_job_completion job_id num_polling_retries rest
        ⟨new_job_status, pollNextProgress job st.current_progress, 0⟩
      (next.1, logs ++ LogEvent.sleep :: next.2)
  | .fetchError e :: rest, st =>
    if st.exception_count < num_polling_retries then
      let next := _poll_job_completion job_id num_polling_retries rest
        ⟨st.current_job_status, st.current_progress, st.exception_count + 1⟩
      (next.1, LogEvent.fetchFailure job_id e :: LogEvent.sleep :: next.2)
    else
      (.raised e, [])

/-! ## Cluster selection (`_get_idle_clusters` and the choice in `_run_job`) -/

/-- `MortarProjectTask._get_idle_clusters`: filter of the cluster snapshot
by running status, non-single-job type, no running jobs, and
`int(size) >= min_size`. -/
def _get_idle_clusters (snapshot : List Cluster) (min_size : Int) : List Cluster :=
  snapshot.filter fun c =>
    c.status_code == CLUSTER_STATUS_RUNNING &&
    c.cluster_type_code != CLUSTER_TYPE_SINGLE_JOB &&
    c.running_jobs.length == 0 &&
    decide (min_size ≤ c.size)

/-- The cluster-choice fragment of `MortarProjectTask._run_job`: when the
idle-cluster list is non-empty, the chosen cluster is
`sorted(idle_clusters, key=lambda c: int(c['size']), reverse=True)[0]`.
Python's sort is stable also under `reverse=True`, which is exactly
`List.insertionSort` under the non-strict descending-size relation. -/
def select_reusable_cluster (snapshot : List Cluster) (min_size : Int) : Option Cluster :=
  let idle_clusters := _get_idle_clusters snapshot min_size
  if idle_clusters.isEmpty then none
  else (idle_clusters.insertionSort fun a b => b.size ≤ a.size).head?

/-! ## The lifecycle controller `MortarProjectTask.run` -/

/-- The token store visible to one task: content of the running-token and
success-token (present iff `some`), plus the set of currently existing
script-output targets (named by strings).  The store operations
(`exists`/`read`/`write`/`delete`, composed via `target_factory`) are
modelled from the spec, section 6. -/
structure TokenStore where
  runningToken : Option String
  successToken : Option String
  scriptOutputs : List String
deriving DecidableEq, Repr

/-- The task configuration fields that `run` reads, plus the declared
`script_output()` target list. -/
structure TaskConfig where
  cluster_size : Int
  run_on_single_use_cluster : Bool
  num_polling_retries : Nat
  script_output : List String
deriving DecidableEq, Repr

/-- Behaviour of the remote API during one `run()` call: the cluster
snapshot returned by `clusters.get_clusters`, the `job_id` returned by
whichever `post_job_*` call is made, and the successive `jobs.get_job`
results consumed by the poller. -/
structure ApiBehavior where
  clusters : List Cluster
  new_job_id : String
  fetches : List FetchResult
deriving DecidableEq, Repr

/-- API calls recorded by the embedding: the two submission operations of
`_run_job`, and the hand-off of a `job_id` to `_poll_job_completion`. -/
inductive ApiEvent where
  | submitExistingCluster (cluster_id : String)
  | submitNewCluster (size : Int) (cluster_type : String)
  | pollJob (job_id : String)
deriving DecidableEq, Repr

def isSubmission : ApiEvent → Bool
  | .submitExistingCluster _ => true
  | .submitNewCluster _ _ => true
  | .pollJob _ => false

/-- Number of job-submission API calls in an event list. -/
def submissionCount (evs : List ApiEvent) : Nat :=
  (evs.filter isSubmission).length

/-- Python truthiness of the `cluster_id` variable in `_run_job`
(`if cluster_id:`): `None` and the empty string are falsy. -/
def pyTruthyStr : Option String → Bool
  | some s => s ≠ ""
  | none => false

/-- `MortarProjectTask._run_job`: picks a reusable idle cluster unless
configured for a single-use cluster, then submits to the existing cluster
(when a truthy `cluster_id` was found) or to a new cluster.  Returns the
submitted `job_id` and the recorded submission call. -/
def _run_job (cfg : TaskConfig) (api : ApiBehavior) : String × List ApiEvent :=
  let cluster_type :=
    if cfg.run_on_single_use_cluster then CLUSTER_TYPE_SINGLE_JOB else CLUSTER_TYPE_PERSISTENT
  let cluster_id : Option String :=
    if cfg.run_on_single_use_cluster then none
    else (select_reusable_cluster api.clusters cfg.cluster_size).map Cluster.cluster_id
  if pyTruthyStr cluster_id then
    (api.new_job_id, [.submitExistingCluster (cluster_id.getD "")])
  else
    (api.new_job_id, [.submitNewCluster cfg.cluster_size cluster_type])

/-- Python `str.strip()`: drop whitespace from both ends. -/
def pyStrip (s : String) : String :=
  ⟨(((s.data.dropWhile Char.isWhitespace).reverse.dropWhile Char.isWhitespace).reverse)⟩

/-- The `job_id` that `run` hands to the poller: the stripped content of
the running-token when it exists, else the id returned by `_run_job`. -/
def runJobId (cfg : TaskConfig) (api : ApiBehavior) (st : TokenStore) : String :=
  match st.runningToken with
  | some content => pyStrip content
  | none => (_run_job cfg api).1

/-- Result of one `run()` call: normal return, a raised exception (with
message), or exhaustion of the modelled fetch results (the Python call
would still be polling). -/
inductive RunResult where
  | ok
  | error (msg : String)
  | outOfFetches
deriving DecidableEq, Repr

/-- Python `'%s' % x` where `x` is a string-or-`None` value. -/
def fmtOpt : Option String → String
  | some s => s
  | none => "None"

/-- The message of the exception raised on a terminal non-success status. -/
def failureMessage (job_id : String) (status : Option String) (err : Option String) : String :=
  "Mortar job_id [" ++ job_id ++ "] failed with status_code: [" ++ fmtOpt status ++
    "], error details: " ++ fmtOpt err

/-- Everything observable about one `run()` call: its result, the final
token store, the API calls made, and the successive token-store states
(`trace`, initial state first — one entry per store mutation point). -/
structure RunOutcome where
  result : RunResult
  store : TokenStore
  events : List ApiEvent
  trace : List TokenStore
deriving DecidableEq, Repr

/-- `MortarProjectTask.run`:

1. if the running-token exists, resume with its stripped content as
   `job_id`; else submit via `_run_job` and write the running-token;
2. poll to completion; a propagated polling exception leaves the store as
   it stands (running-token in place);
3. on a terminal status remove the running-token, then either write the
   (empty) success-token, or — when the status is not `STATUS_SUCCESS` —
   remove every declared script output and raise an exception naming the
   job id, status code and error details. -/
def MortarProjectTask.run (cfg : TaskConfig) (api : ApiBehavior) (st0 : TokenStore) : RunOutcome :=
  let submitEvents : List ApiEvent :=
    match st0.runningToken with
    | some _ => []
    | none => (_run_job cfg api).2
  let job_id := runJobId cfg api st0
  let st1 : TokenStore :=
    match st0.runningToken with
    | some _ => st0
    | none => { st0 with runningToken := some job_id }
  let events := submitEvents ++ [ApiEvent.pollJob job_id]
  let polled := _poll_job_completion job_id cfg.num_polling_retries api.fetches initPollState
  match polled.1 with
  | .outOfInput =>
    { result := .outOfFetches, store := st1, events := events, trace := [st0, st1] }
  | .raised e =>
    { result := .error e, store := st1, events := events, trace := [st0, st1] }
  | .done job =>
    let st2 : TokenStore := { st1 with runningToken := none }
    if job.status_code ≠ some STATUS_SUCCESS then
      let st3 : TokenStore :=
        { st2 with scriptOutputs := st2.scriptOutputs.filter fun o => !(cfg.script_output.contains o) }
      { result := .error (failureMessage job_id job.status_code job.error),
        store := st3, events := events, trace := [st0, st1, st2, st3] }
    else
      let st3 : TokenStore := { st2 with successToken := some "" }
      { result := .ok, store := st3, events := events, trace := [st0, st1, st2, st3] }

/-! ## The shell task (`shellscript.py`) -/

/-- Captured outcome of `output.communicate()` and `output.returncode`. -/
structure ShellResult where
  out : String
  err : String
  returncode : Int
deriving DecidableEq, Repr

/-- Python `repr` of a captured output string, as used in the diagnostic
message (modelled as simple quoting; the exact escaping is immaterial to
the properties proved here). -/
def pyRepr (s : String) : String := "\x27" ++ s ++ "\x27"

/-- `ShellScriptTask._create_message`. -/
def _create_message (cmd out err : String) (rc : Int) : String :=
  "" ++ "\n-----------------------------"
     ++ "\nCMD         : " ++ cmd
     ++ "\nSTDOUT      : " ++ pyRepr out
     ++ "\nSTDERR      : " ++ pyRepr err
     ++ "\nRETURN CODE : " ++ toString rc
     ++ "\n-----------------------------"

/-- `ShellScriptTask._check_error`: raises `RuntimeError(message)` iff
stderr is non-empty or the return code is non-zero. -/
def _check_error (rc : Int) (err : String) (message : String) : Except String Unit :=
  if err ≠ "" ∨ rc ≠ 0 then .error message else .ok ()

/-- `ShellScriptTask.run` on a command whose execution produced `res`:
returns `.error m` when `_check_error` raises, else `.ok written` where
`written` says whether the success token was written (the source guard
`if err == ''`). -/
def ShellScriptTask.run (cmd : String) (res : ShellResult) : Except String Bool :=
  let message := _create_message cmd res.out res.err res.returncode
  match _check_error res.returncode res.err message with
  | .error m => .error m
  | .ok _ => .ok (if res.err = "" then true else false)

/-! ## Auxiliary notions used by the statements -/

/-- `containsStr s t`: `t` occurs (contiguously) inside `s`. -/
def containsStr (s t : String) : Prop := ∃ a b, s = a ++ t ++ b

/-- The first cluster of maximal size in a list: the element that a stable
descending-by-size sort puts first. -/
def firstMaxCluster : List Cluster → Option Cluster
  | [] => none
  | c :: cs =>
    match firstMaxCluster cs with
    | none => some c
    | some m => if c.size < m.size then some m else some c

/-- Number of progress log lines in a poller log. -/
def progressLogCount (ls : List LogEvent) : Nat :=
  (ls.filter fun l => match l with | .progressLog _ _ => true | _ => false).length

/-- Number of status-transition log lines in a poller log. -/
def statusChangeCount (ls : List LogEvent) : Nat :=
  (ls.filter fun l => match l with | .statusChange _ _ _ => true | _ => false).length

/-- Number of fetch-failure log lines in a poller log. -/
def fetchFailureCount (ls : List LogEvent) : Nat :=
  (ls.filter fun l => match l with | .fetchFailure _ _ => true | _ => false).length

/-- Number of sleeps in a poller log. -/
def sleepCount (ls : List LogEvent) : Nat :=
  (ls.filter fun l => match l with | .sleep => true | _ => false).length

/-- A job in the running state reporting progress `p`. -/
def runningJob (p : Int) : Job :=
  ⟨some STATUS_RUNNING, some p, "running", none, none⟩

/-- Fetch results for a job that stays in the running state while its
progress takes the successive values `ps`. -/
def runningFetches : List Int → List FetchResult
  | [] => []
  | p :: ps => .ok (runningJob p) :: runningFetches ps

/-- Number of value changes in the progress sequence `ps`, relative to the
previously logged value `cur` (the de-duplicated log count). -/
def dedupCount : Option Int → List Int → Nat
  | _, [] => 0
  | cur, p :: ps => if some p ≠ cur then 1 + dedupCount (some p) ps else dedupCount cur ps

/-- The log of `k` retried fetch failures: one failure line and one sleep
per failure. -/
def failureLogs (job_id e : String) (k : Nat) : List LogEvent :=
  (List.replicate k [LogEvent.fetchFailure job_id e, LogEvent.sleep]).flatten

/-! ## Concrete fixtures for witnesses and counterexamples -/

/-- The specification's tie-break example, cluster `A`: size 4, idle,
persistent. -/
def clusterA : Cluster := ⟨"A", 4, CLUSTER_STATUS_RUNNING, CLUSTER_TYPE_PERSISTENT, []⟩

/-- The specification's tie-break example, cluster `B`: size 8, idle,
persistent. -/
def clusterB : Cluster := ⟨"B", 8, CLUSTER_STATUS_RUNNING, CLUSTER_TYPE_PERSISTENT, []⟩

/-- The specification's tie-break example, cluster `C`: size 8, busy
(one running job), persistent. -/
def clusterC : Cluster := ⟨"C", 8, CLUSTER_STATUS_RUNNING, CLUSTER_TYPE_PERSISTENT, ["job1"]⟩

/-- A job that has reached the success terminal status. -/
def successJob : Job := ⟨some STATUS_SUCCESS, some 100, "success", none, none⟩

/-- A job that has reached a failure terminal status. -/
def failedJob : Job := ⟨some STATUS_FAILURE, none, "failed", some "details", some "errdetail"⟩

/-- A task configured for a single-use cluster with one declared script
output. -/
def cfgSingle : TaskConfig := ⟨2, true, 3, ["out1"]⟩

/-- An API whose submissions return job id `J1` and whose first status
fetch already reports success. -/
def apiSuccess : ApiBehavior := ⟨[], "J1", [.ok successJob]⟩

/-- An API whose submissions return job id `J1` and whose first status
fetch reports a terminal failure. -/
def apiFailed : ApiBehavior := ⟨[], "J1", [.ok failedJob]⟩

/-- The token state after a completed task: success-token present (empty),
running-token absent. -/
def storeDone : TokenStore := ⟨none, some "", []⟩

/-- The token state of a never-started task. -/
def storeFresh : TokenStore := ⟨none, none, []⟩

/-- The token state of an in-flight task: running-token holding job id
`J9`, one declared output materialised plus one unrelated target. -/
def storeRunning : TokenStore := ⟨some "J9", none, ["out1", "other"]⟩

/-! ## Theorems -/

/-- Processing `k` consecutive fetch failures with `c` failures already
counted and `c + k` within the retry budget logs and sleeps once per
failure and continues polling with the counter advanced to `c + k`,
leaving the carried status and progress untouched. -/
theorem poll_consec_failures (jid e : String) (N : Nat) :
    ∀ (k c : Nat) (cs : Option String) (cp : Option Int) (rest : List FetchResult),
      c + k ≤ N →
      _poll_job_completion jid N (List.replicate k (.fetchError e) ++ rest) ⟨cs, cp, c⟩
        = ((_poll_job_completion jid N rest ⟨cs, cp, c + k⟩).1,
           failureLogs jid e k ++ (_poll_job_completion jid N rest ⟨cs, cp, c + k⟩).2)
  | 0, c, cs, cp, rest, _ => by
    simp [failureLogs]
  | k + 1, c, cs, cp, rest, h => by
    have hc : c < N := by omega
    have ih := poll_consec_failures jid e N k (c + 1) cs cp rest (by omega)
    have hnum : c + 1 + k = c + (k + 1) := by omega
    rw [hnum] at ih
    rw [List.replicate_succ, List.cons_append]
    simp only [_poll_job_completion, hc, if_true, ih, failureLogs, List.replicate_succ,
      List.flatten_cons]
    simp [List.append_assoc]

/-- C2: with retry budget `max_retries = N`, a run of `N + 1` consecutive
fetch failures starting at a zero counter (poll entry, or just after any
successful fetch) makes the poller raise (propagating the fetch error) at
the `(N+1)`-th failure, after logging and sleeping once for each of the
first `N`; any strictly shorter run of `k ≤ N` consecutive failures is
instead absorbed — one failure log and one sleep per failure — and polling
continues on the remaining fetches with the counter at `k`.  With
`max_retries = 3` the poller thus raises on the 4th consecutive failure. -/
theorem poll_retry_exhaustion (jid e : String) (N : Nat) (cs : Option String) (cp : Option Int) :
    (∀ rest, _poll_job_completion jid N
        (List.replicate (N + 1) (.fetchError e) ++ rest) ⟨cs, cp, 0⟩
        = (.raised e, failureLogs jid e N))
    ∧ ∀ k, k ≤ N → ∀ rest,
        _poll_job_completion jid N (List.replicate k (.fetchError e) ++ rest) ⟨cs, cp, 0⟩
          = ((_poll_job_completion jid N rest ⟨cs, cp, k⟩).1,
             failureLogs jid e k ++ (_poll_job_completion jid N rest ⟨cs, cp, k⟩).2) := by
  have habsorb : ∀ k, k ≤ N → ∀ rest,
      _poll_job_completion jid N (List.replicate k (.fetchError e) ++ rest) ⟨cs, cp, 0⟩
        = ((_poll_job_completion jid N rest ⟨cs, cp, k⟩).1,
           failureLogs jid e k ++ (_poll_job_completion jid N rest ⟨cs, cp, k⟩).2) := by
    intro k hk rest
    have h := poll_consec_failures jid e N k 0 cs cp rest (by omega)
    simpa using h
  refine ⟨?_, habsorb⟩
  intro rest
  have hsplit : List.replicate (N + 1) (FetchResult.fetchError e) ++ rest
      = List.replicate N (FetchResult.fetchError e) ++ (FetchResult.fetchError e :: rest) := by
    rw [List.replicate_succ', List.append_assoc, List.singleton_append]
  rw [hsplit, habsorb N (le_refl N) (.fetchError e :: rest)]
  have hraise : _poll_job_completion jid N (FetchResult.fetchError e :: rest) ⟨cs, cp, N⟩
      = (.raised e, []) := by
    simp only [_poll_job_completion]
    rw [if_neg (by omega)]
  rw [hraise]
  simp

/-- C2 witness: with `max_retries = 3`, four consecutive failures raise on
the 4th (three retries logged and slept), while two consecutive failures
are absorbed and polling continues with the counter at 2. -/
theorem poll_retry_exhaustion_witness :
    (_poll_job_completion "j" 3 (List.replicate 4 (.fetchError "boom") ++ []) initPollState
        = (.raised "boom", failureLogs "j" "boom" 3))
    ∧ (2 ≤ 3
      ∧ _poll_job_completion "j" 3
          (List.replicate 2 (.fetchError "boom") ++ [FetchResult.ok successJob]) initPollState
        = ((_poll_job_completion "j" 3 [FetchResult.ok successJob] ⟨none, none, 2⟩).1,
           failureLogs "j" "boom" 2
             ++ (_poll_job_completion "j" 3 [FetchResult.ok successJob] ⟨none, none, 2⟩).2)) :=
  ⟨(poll_retry_exhaustion "j" "boom" 3 none none).1 [],
   ⟨by decide,
    (poll_retry_exhaustion "j" "boom" 3 none none).2 2 (by decide) [FetchResult.ok successJob]⟩⟩

/-- C3: every successful status fetch resets the transient-failure counter
— after a successful non-terminal fetch, polling of the remaining fetches
proceeds from `exception_count = 0` whatever the counter was before, so
`max_retries` only ever bounds consecutive failures, never cumulative
ones.  With `max_retries = 3`, the sequence fail, fail, success (running),
fail, fail, fail, success (terminal) returns the job without raising. -/
theorem poll_counter_reset (jid : String) (N : Nat) :
    (∀ (job : Job) (rest : List FetchResult) (cs : Option String) (cp : Option Int) (c : Nat),
      optStatusComplete job.status_code = false →
      (_poll_job_completion jid N (.ok job :: rest) ⟨cs, cp, c⟩).1
        = (_poll_job_completion jid N rest ⟨job.status_code, pollNextProgress job cp, 0⟩).1)
    ∧ (_poll_job_completion "j" 3
        [.fetchError "e", .fetchError "e", .ok (runningJob 10), .fetchError "e", .fetchError "e",
          .fetchError "e", .ok successJob] initPollState).1 = PollResult.done successJob := by
  constructor
  · intro job rest cs cp c hterm
    simp only [_poll_job_completion]
    rw [if_neg (by simp [hterm])]
  · decide

/-- C3 witness: resuming after a successful running-status fetch, the
counter restarts at zero even when it stood at 2. -/
theorem poll_counter_reset_witness :
    optStatusComplete (runningJob 10).status_code = false ∧
    (_poll_job_completion "j" 3 [FetchResult.ok (runningJob 10)] ⟨none, none, 2⟩).1
      = (_poll_job_completion "j" 3 []
          ⟨(runningJob 10).status_code, pollNextProgress (runningJob 10) none, 0⟩).1 :=
  ⟨by decide,
   (poll_counter_reset "j" 3).1 (runningJob 10) [] none none 2 (by decide)⟩

theorem runningJob_status (p : Int) : (runningJob p).status_code = some STATUS_RUNNING := rfl

theorem runningJob_progress (p : Int) : (runningJob p).progress = some p := rfl

theorem pollNextProgress_runningJob (p : Int) (cp : Option Int) :
    pollNextProgress (runningJob p) cp = if some p ≠ cp then some p else cp := by
  simp [pollNextProgress, runningJob_status, runningJob_progress]

/-- Progress is logged exactly once per change of the fetched progress
value while the job stays in the running state, starting from any carried
state. -/
theorem poll_running_progress_count (jid : String) (N : Nat) :
    ∀ (ps : List Int) (cs : Option String) (cp : Option Int) (c : Nat),
      progressLogCount (_poll_job_completion jid N (runningFetches ps) ⟨cs, cp, c⟩).2
        = dedupCount cp ps
  | [], cs, cp, c => by
    simp [runningFetches, _poll_job_completion, progressLogCount, dedupCount]
  | p :: ps, cs, cp, c => by
    have hterm : optStatusComplete (some STATUS_RUNNING) = false := by decide
    simp only [runningFetches, _poll_job_completion, runningJob_status, runningJob_progress,
      pollNextProgress_runningJob]
    rw [if_neg (by simp [hterm])]
    by_cases hp : some p = cp
    · rw [if_neg (show ¬(True ∧ some p ≠ cp) by simp [hp]),
        if_neg (show ¬(some p ≠ cp) by simp [hp])]
      have ih := poll_running_progress_count jid N ps (some STATUS_RUNNING) cp 0
      simp only [progressLogCount] at ih ⊢
      by_cases hs : (some STATUS_RUNNING : Option String) = cs
      · rw [if_neg (show ¬((some STATUS_RUNNING : Option String) ≠ cs) from fun hne => hne hs)]
        simp [List.filter_append, List.filter_cons, dedupCount, hp, ih]
      · rw [if_pos (show (some STATUS_RUNNING : Option String) ≠ cs from hs)]
        simp [List.filter_append, List.filter_cons, dedupCount, hp, ih]
    · rw [if_pos (show True ∧ some p ≠ cp from ⟨trivial, hp⟩),
        if_pos (show some p ≠ cp from hp)]
      have ih := poll_running_progress_count jid N ps (some STATUS_RUNNING) (some p) 0
      simp only [progressLogCount] at ih ⊢
      by_cases hs : (some STATUS_RUNNING : Option String) = cs
      · rw [if_neg (show ¬((some STATUS_RUNNING : Option String) ≠ cs) from fun hne => hne hs)]
        simp [List.filter_append, List.filter_cons, dedupCount, hp, ih]
        omega
      · rw [if_pos (show (some STATUS_RUNNING : Option String) ≠ cs from hs)]
        simp [List.filter_append, List.filter_cons, dedupCount, hp, ih]
        omega

/-- No status transition is logged while the fetched status equals the
carried status (the running state here). -/
theorem poll_running_status_count (jid : String) (N : Nat) :
    ∀ (ps : List Int) (cp : Option Int) (c : Nat),
      statusChangeCount
        (_poll_job_completion jid N (runningFetches ps) ⟨some STATUS_RUNNING, cp, c⟩).2 = 0
  | [], cp, c => by
    simp [runningFetches, _poll_job_completion, statusChangeCount]
  | p :: ps, cp, c => by
    have hterm : optStatusComplete (some STATUS_RUNNING) = false := by decide
    simp only [runningFetches, _poll_job_completion, runningJob_status, runningJob_progress,
      pollNextProgress_runningJob]
    rw [if_neg (by simp [hterm])]
    rw [if_neg (show ¬((some STATUS_RUNNING : Option String) ≠ some STATUS_RUNNING)
      from fun hne => hne rfl)]
    by_cases hp : some p = cp
    · rw [if_neg (show ¬(True ∧ some p ≠ cp) by simp [hp]),
        if_neg (show ¬(some p ≠ cp) by simp [hp])]
      have ih := poll_running_status_count jid N ps cp 0
      simp only [statusChangeCount] at ih ⊢
      simp [List.filter_append, List.filter_cons, ih]
    · rw [if_pos (show True ∧ some p ≠ cp from ⟨trivial, hp⟩),
        if_pos (show some p ≠ cp from hp)]
      have ih := poll_running_status_count jid N ps (some p) 0
      simp only [statusChangeCount] at ih ⊢
      simp [List.filter_append, List.filter_cons, ih]

/-- C8: while the job status stays `RUNNING`, a progress value is logged
exactly when it differs from the previously logged one — for any progress
sequence the number of progress log lines is the de-duplicated change
count, and no status transition is logged while the status is unchanged;
for the sequence `[10, 10, 20, 20, 30]` from a fresh poll, progress is
logged exactly 3 times and the status transition exactly once. -/
theorem progress_log_dedup (jid : String) (N : Nat) :
    (∀ (ps : List Int) (cs : Option String) (cp : Option Int) (c : Nat),
      progressLogCount (_poll_job_completion jid N (runningFetches ps) ⟨cs, cp, c⟩).2
        = dedupCount cp ps)
    ∧ (∀ (ps : List Int) (cp : Option Int) (c : Nat),
      statusChangeCount
        (_poll_job_completion jid N (runningFetches ps) ⟨some STATUS_RUNNING, cp, c⟩).2 = 0)
    ∧ progressLogCount
        (_poll_job_completion "j" 3 (runningFetches [10, 10, 20, 20, 30]) initPollState).2 = 3
    ∧ statusChangeCount
        (_poll_job_completion "j" 3 (runningFetches [10, 10, 20, 20, 30]) initPollState).2 = 1 :=
  ⟨poll_running_progress_count jid N, poll_running_status_count jid N, by decide, by decide⟩

/-- The head of the stable descending-by-size sort is the first cluster of
maximal size. -/
theorem head_insertionSort_firstMax (l : List Cluster) :
    ((l.insertionSort fun a b => b.size ≤ a.size).head?) = firstMaxCluster l := by
  induction l with
  | nil => rfl
  | cons c cs ih =>
    simp only [List.insertionSort]
    rcases hs : (cs.insertionSort fun a b => b.size ≤ a.size) with _ | ⟨y, ys⟩
    · rw [hs] at ih
      rw [hs]
      have hnone : firstMaxCluster cs = none := ih.symm
      simp [firstMaxCluster, hnone, List.orderedInsert]
    · rw [hs] at ih
      rw [hs]
      have hy : firstMaxCluster cs = some y := by simpa using ih.symm
      simp only [List.orderedInsert, firstMaxCluster, hy]
      rcases le_or_lt y.size c.size with h | h
      · rw [if_pos h, if_neg (not_lt.mpr h)]
        simp
      · rw [if_neg (not_le.mpr h), if_pos h]
        simp

theorem firstMaxCluster_eq_none_iff (l : List Cluster) :
    firstMaxCluster l = none ↔ l = [] := by
  cases l with
  | nil => simp [firstMaxCluster]
  | cons c cs =>
    simp only [firstMaxCluster]
    rcases firstMaxCluster cs with _ | m
    · simp
    · by_cases h : c.size < m.size <;> simp [h]

/-- The first-max cluster decomposes its list as greater-than-everything
before it, and it dominates every element. -/
theorem firstMaxCluster_spec (l : List Cluster) (c : Cluster) (h : firstMaxCluster l = some c) :
    (∃ pre post, l = pre ++ c :: post ∧ ∀ d ∈ pre, d.size < c.size)
    ∧ ∀ d ∈ l, d.size ≤ c.size := by
  induction l generalizing c with
  | nil => cases h
  | cons a l ih =>
    rw [firstMaxCluster] at h
    rcases hm : firstMaxCluster l with _ | m
    · rw [hm] at h
      have h' : some a = some c := h
      cases h'
      have hl : l = [] := (firstMaxCluster_eq_none_iff l).mp hm
      subst hl
      exact ⟨⟨[], [], rfl, by simp⟩, by simp⟩
    · rw [hm] at h
      have h' : (if a.size < m.size then some m else some a) = some c := h
      obtain ⟨⟨pre, post, hsplit, hpre⟩, hmax⟩ := ih m hm
      by_cases hlt : a.size < m.size
      · rw [if_pos hlt] at h'
        cases h'
        refine ⟨⟨a :: pre, post, by simp [hsplit], ?_⟩, ?_⟩
        · intro d hd
          rcases List.mem_cons.mp hd with hd | hd
          · rw [hd]; exact hlt
          · exact hpre d hd
        · intro d hd
          rcases List.mem_cons.mp hd with hd | hd
          · rw [hd]; exact le_of_lt hlt
          · exact hmax d hd
      · rw [if_neg hlt] at h'
        cases h'
        refine ⟨⟨[], l, rfl, by simp⟩, ?_⟩
        intro d hd
        rcases List.mem_cons.mp hd with hd | hd
        · rw [hd]
        · exact le_trans (hmax d hd) (not_lt.mp hlt)

/-- C7: cluster selection considers exactly the clusters that are running,
not single-job, idle and at least `min_size` large; when at least one such
cluster exists it picks the one of largest size, ties broken by snapshot
order (the chosen cluster is preceded only by strictly smaller matches),
and when none exists it signals `none` so a new cluster is provisioned.
On the spec's example (A: size 4 idle, B: size 8 idle, C: size 8 busy;
`min_size = 4`) it selects `B`. -/
theorem cluster_selection_policy (snapshot : List Cluster) (min_size : Int) :
    (∀ c, c ∈ _get_idle_clusters snapshot min_size ↔
      (c ∈ snapshot ∧ c.status_code = CLUSTER_STATUS_RUNNING
        ∧ c.cluster_type_code ≠ CLUSTER_TYPE_SINGLE_JOB
        ∧ c.running_jobs = [] ∧ min_size ≤ c.size))
    ∧ (select_reusable_cluster snapshot min_size = none
        ↔ _get_idle_clusters snapshot min_size = [])
    ∧ (∀ c, select_reusable_cluster snapshot min_size = some c →
        (∃ pre post, _get_idle_clusters snapshot min_size = pre ++ c :: post
          ∧ ∀ d ∈ pre, d.size < c.size)
        ∧ ∀ d ∈ _get_idle_clusters snapshot min_size, d.size ≤ c.size)
    ∧ select_reusable_cluster [clusterA, clusterB, clusterC] 4 = some clusterB := by
  refine ⟨?_, ?_, ?_, by decide⟩
  · intro c
    simp [_get_idle_clusters, List.mem_filter, List.length_eq_zero, and_assoc]
  · unfold select_reusable_cluster
    by_cases hempty : (_get_idle_clusters snapshot min_size).isEmpty
    · rw [if_pos hempty]
      simp [List.isEmpty_iff.mp hempty]
    · rw [if_neg hempty]
      rw [head_insertionSort_firstMax]
      constructor
      · intro hnone
        exact (firstMaxCluster_eq_none_iff _).mp hnone
      · intro hnil
        exact absurd (List.isEmpty_iff.mpr hnil) hempty
  · intro c hsel
    unfold select_reusable_cluster at hsel
    by_cases hempty : (_get_idle_clusters snapshot min_size).isEmpty
    · rw [if_pos hempty] at hsel
      cases hsel
    · rw [if_neg hempty, head_insertionSort_firstMax] at hsel
      exact firstMaxCluster_spec _ c hsel

/-- C7 witness: on the spec's example snapshot the selected cluster `B` is
preceded in the filtered list only by strictly smaller clusters and
dominates all of them. -/
theorem cluster_selection_policy_witness :
    select_reusable_cluster [clusterA, clusterB, clusterC] 4 = some clusterB ∧
    ((∃ pre post, _get_idle_clusters [clusterA, clusterB, clusterC] 4 = pre ++ clusterB :: post
        ∧ ∀ d ∈ pre, d.size < clusterB.size)
      ∧ ∀ d ∈ _get_idle_clusters [clusterA, clusterB, clusterC] 4, d.size ≤ clusterB.size) :=
  ⟨by decide,
   (cluster_selection_policy [clusterA, clusterB, clusterC] 4).2.2.1 clusterB (by decide)⟩

/-- The API calls of one `run()`: the submissions of `_run_job` exactly
when no running-token exists, followed by the poll of `runJobId`. -/
theorem run_events_eq (cfg : TaskConfig) (api : ApiBehavior) (st : TokenStore) :
    (MortarProjectTask.run cfg api st).events =
      (match st.runningToken with
        | some _ => ([] : List ApiEvent)
        | none => (_run_job cfg api).2) ++ [ApiEvent.pollJob (runJobId cfg api st)] := by
  unfold MortarProjectTask.run
  split <;> (dsimp only; split <;> first | rfl | (split <;> rfl))

/-- `_run_job` performs exactly one submission call. -/
theorem submissionCount_run_job (cfg : TaskConfig) (api : ApiBehavior) :
    submissionCount (_run_job cfg api).2 = 1 := by
  unfold _run_job
  dsimp only
  split <;> first | rfl | (split <;> rfl)

theorem submissionCount_append (a b : List ApiEvent) :
    submissionCount (a ++ b) = submissionCount a + submissionCount b := by
  simp [submissionCount, List.filter_append]

/-- C1 counterexample: `run()` is not a no-op when the success-token
exists and the running-token does not — it submits a job (1 submission,
not 0); and two sequential `run()` calls from a fresh state perform two
submissions, not one. -/
theorem run_submits_despite_success_token :
    storeDone.successToken = some "" ∧ storeDone.runningToken = none
    ∧ submissionCount (MortarProjectTask.run cfgSingle apiSuccess storeDone).events = 1
    ∧ submissionCount (MortarProjectTask.run cfgSingle apiSuccess storeFresh).events
      + submissionCount (MortarProjectTask.run cfgSingle apiSuccess
          (MortarProjectTask.run cfgSingle apiSuccess storeFresh).store).events = 2 := by
  refine ⟨rfl, rfl, ?_, ?_⟩ <;> decide

/-- C1 amended: `run()` never consults the success-token.  Whenever the
running-token is absent — success-token present or not — `run()` performs
exactly one job submission; hence two sequential `run()` calls that each
start without a running-token (as when the first reaches a terminal
status, which removes it) perform exactly two submissions in total. -/
theorem run_submission_count (cfg : TaskConfig) (api : ApiBehavior) (st : TokenStore)
    (h : st.runningToken = none) :
    submissionCount (MortarProjectTask.run cfg api st).events = 1
    ∧ ((MortarProjectTask.run cfg api st).store.runningToken = none →
      submissionCount (MortarProjectTask.run cfg api st).events
        + submissionCount (MortarProjectTask.run cfg api
            (MortarProjectTask.run cfg api st).store).events = 2) := by
  have hone : ∀ (s : TokenStore), s.runningToken = none →
      submissionCount (MortarProjectTask.run cfg api s).events = 1 := by
    intro s hs
    rw [run_events_eq cfg api s, hs, submissionCount_append]
    show submissionCount (_run_job cfg api).2
      + submissionCount [ApiEvent.pollJob (runJobId cfg api s)] = 1
    rw [submissionCount_run_job]
    rfl
  refine ⟨hone st h, fun h2 => ?_⟩
  rw [hone st h, hone _ h2]

/-- C1 amended-claim witness: from the completed state (success-token
present, running-token absent) one `run()` submits once, and a second
sequential `run()` submits again — two submissions in total. -/
theorem run_submission_count_witness :
    storeDone.runningToken = none
    ∧ submissionCount (MortarProjectTask.run cfgSingle apiSuccess storeDone).events = 1
    ∧ submissionCount (MortarProjectTask.run cfgSingle apiSuccess storeDone).events
      + submissionCount (MortarProjectTask.run cfgSingle apiSuccess
          (MortarProjectTask.run cfgSingle apiSuccess storeDone).store).events = 2 :=
  ⟨rfl, (run_submission_count cfgSingle apiSuccess storeDone rfl).1,
    (run_submission_count cfgSingle apiSuccess storeDone rfl).2 (by decide)⟩

/-- C4: with a running-token whose stored content is the (whitespace-free)
job id `J`, `run()`'s only API interaction before completion handling is
polling `J`: it passes `J` to the poller and invokes neither submission
operation. -/
theorem run_resume_polls_directly (cfg : TaskConfig) (api : ApiBehavior) (st : TokenStore)
    (J : String) (h1 : st.runningToken = some J) (h2 : pyStrip J = J) :
    (MortarProjectTask.run cfg api st).events = [ApiEvent.pollJob J]
    ∧ submissionCount (MortarProjectTask.run cfg api st).events = 0 := by
  have hid : runJobId cfg api st = J := by
    simp [runJobId, h1, h2]
  have he := run_events_eq cfg api st
  rw [h1, hid] at he
  simp only [List.nil_append] at he
  exact ⟨he, by rw [he]; rfl⟩

/-- C4 witness: resuming from a running-token holding `J9` polls `J9` and
performs no submission. -/
theorem run_resume_polls_directly_witness :
    storeRunning.runningToken = some "J9" ∧ pyStrip "J9" = "J9"
    ∧ ((MortarProjectTask.run cfgSingle apiFailed storeRunning).events
        = [ApiEvent.pollJob "J9"]
      ∧ submissionCount (MortarProjectTask.run cfgSingle apiFailed storeRunning).events = 0) :=
  ⟨rfl, by decide,
    run_resume_polls_directly cfgSingle apiFailed storeRunning "J9" rfl (by decide)⟩

/-- C5: starting from any state without a success-token, every token-store
state reached during `run()` has at most one of the running-token and the
success-token present (the running-token is removed before the
success-token is written), and a `run()` that observes the success
terminal status ends with the running-token absent and the success-token
present with empty content. -/
theorem run_token_invariant (cfg : TaskConfig) (api : ApiBehavior) (st : TokenStore)
    (h : st.successToken = none) :
    (∀ s ∈ (MortarProjectTask.run cfg api st).trace,
      ¬(s.runningToken.isSome = true ∧ s.successToken.isSome = true))
    ∧ ((MortarProjectTask.run cfg api st).result = RunResult.ok →
      (MortarProjectTask.run cfg api st).store.runningToken = none
        ∧ (MortarProjectTask.run cfg api st).store.successToken = some "") := by
  unfold MortarProjectTask.run
  split <;> (dsimp only; split <;> first | (split <;> simp [h]) | simp [h])

/-- C5 witness: a fresh task whose job succeeds ends with the running-token
absent and an empty success-token, with the invariant holding at every
intermediate state. -/
theorem run_token_invariant_witness :
    storeFresh.successToken = none
    ∧ (∀ s ∈ (MortarProjectTask.run cfgSingle apiSuccess storeFresh).trace,
        ¬(s.runningToken.isSome = true ∧ s.successToken.isSome = true))
    ∧ (MortarProjectTask.run cfgSingle apiSuccess storeFresh).result = RunResult.ok
    ∧ ((MortarProjectTask.run cfgSingle apiSuccess storeFresh).store.runningToken = none
      ∧ (MortarProjectTask.run cfgSingle apiSuccess storeFresh).store.successToken = some "") :=
  ⟨rfl, (run_token_invariant cfgSingle apiSuccess storeFresh rfl).1, by decide,
    (run_token_invariant cfgSingle apiSuccess storeFresh rfl).2 (by decide)⟩

/-- `run()` on a poll that ends in a terminal non-success status: the
error result carries the failure message, the running-token is removed,
the success-token is untouched, and the declared script outputs are
filtered out of the store. -/
theorem run_done_failure_eq (cfg : TaskConfig) (api : ApiBehavior) (st : TokenStore) (job : Job)
    (hdone : (_poll_job_completion (runJobId cfg api st) cfg.num_polling_retries api.fetches
        initPollState).1 = PollResult.done job)
    (hfail : job.status_code ≠ some STATUS_SUCCESS) :
    (MortarProjectTask.run cfg api st).result
        = RunResult.error (failureMessage (runJobId cfg api st) job.status_code job.error)
    ∧ (MortarProjectTask.run cfg api st).store.runningToken = none
    ∧ (MortarProjectTask.run cfg api st).store.successToken = st.successToken
    ∧ (MortarProjectTask.run cfg api st).store.scriptOutputs
        = st.scriptOutputs.filter fun o => !(cfg.script_output.contains o) := by
  unfold MortarProjectTask.run
  split <;> (dsimp only; simp only [hdone]; rw [if_pos hfail]) <;> simp

/-- The failure message contains the job id, the rendered status code and
the rendered error detail. -/
theorem failureMessage_contains (jid : String) (s e : Option String) :
    containsStr (failureMessage jid s e) jid
    ∧ containsStr (failureMessage jid s e) (fmtOpt s)
    ∧ containsStr (failureMessage jid s e) (fmtOpt e) := by
  refine ⟨⟨"Mortar job_id [",
      "] failed with status_code: [" ++ fmtOpt s ++ "], error details: " ++ fmtOpt e, ?_⟩,
    ⟨"Mortar job_id [" ++ jid ++ "] failed with status_code: [",
      "], error details: " ++ fmtOpt e, ?_⟩,
    ⟨"Mortar job_id [" ++ jid ++ "] failed with status_code: [" ++ fmtOpt s
        ++ "], error details: ", "", ?_⟩⟩ <;>
  simp [failureMessage, String.append_assoc, String.append_empty]

/-- C6: when polling ends in a terminal non-success status, `run()`
removes the running-token, removes every declared script output, writes no
success-token, and raises an error whose message contains the job id, the
terminal status code, and the remote-supplied error detail. -/
theorem run_failure_cleanup (cfg : TaskConfig) (api : ApiBehavior) (st : TokenStore) (job : Job)
    (hdone : (_poll_job_completion (runJobId cfg api st) cfg.num_polling_retries api.fetches
        initPollState).1 = PollResult.done job)
    (hfail : job.status_code ≠ some STATUS_SUCCESS) :
    (MortarProjectTask.run cfg api st).result
        = RunResult.error (failureMessage (runJobId cfg api st) job.status_code job.error)
    ∧ containsStr (failureMessage (runJobId cfg api st) job.status_code job.error)
        (runJobId cfg api st)
    ∧ containsStr (failureMessage (runJobId cfg api st) job.status_code job.error)
        (fmtOpt job.status_code)
    ∧ containsStr (failureMessage (runJobId cfg api st) job.status_code job.error)
        (fmtOpt job.error)
    ∧ (MortarProjectTask.run cfg api st).store.runningToken = none
    ∧ (∀ t ∈ cfg.script_output, t ∉ (MortarProjectTask.run cfg api st).store.scriptOutputs)
    ∧ (MortarProjectTask.run cfg api st).store.successToken = st.successToken := by
  obtain ⟨hres, hrun, hsucc, hout⟩ := run_done_failure_eq cfg api st job hdone hfail
  obtain ⟨h1, h2, h3⟩ := failureMessage_contains (runJobId cfg api st) job.status_code job.error
  refine ⟨hres, h1, h2, h3, hrun, ?_, hsucc⟩
  intro t ht hmem
  rw [hout] at hmem
  obtain ⟨-, hcond⟩ := List.mem_filter.mp hmem
  simp at hcond
  exact hcond ht

/-- C6 witness: a resumed job that ends in the failure status makes
`run()` raise the diagnostic error, remove the running-token and delete
the declared output. -/
theorem run_failure_cleanup_witness :
    ((_poll_job_completion (runJobId cfgSingle apiFailed storeRunning)
        cfgSingle.num_polling_retries apiFailed.fetches initPollState).1
      = PollResult.done failedJob)
    ∧ (failedJob.status_code ≠ some STATUS_SUCCESS)
    ∧ ((MortarProjectTask.run cfgSingle apiFailed storeRunning).result
        = RunResult.error (failureMessage (runJobId cfgSingle apiFailed storeRunning)
            failedJob.status_code failedJob.error)
      ∧ (MortarProjectTask.run cfgSingle apiFailed storeRunning).store.runningToken = none
      ∧ ∀ t ∈ cfgSingle.script_output,
          t ∉ (MortarProjectTask.run cfgSingle apiFailed storeRunning).store.scriptOutputs) :=
  ⟨by decide, by decide,
    (run_failure_cleanup cfgSingle apiFailed storeRunning failedJob (by decide) (by decide)).1,
    (run_failure_cleanup cfgSingle apiFailed storeRunning failedJob (by decide)
      (by decide)).2.2.2.2.1,
    (run_failure_cleanup cfgSingle apiFailed storeRunning failedJob (by decide)
      (by decide)).2.2.2.2.2.1⟩

/-- `ShellScriptTask.run` in closed form: it raises the diagnostic message
when stderr is non-empty or the return code is non-zero, and otherwise
returns normally having written the success token. -/
theorem shellRun_eq (cmd : String) (r : ShellResult) :
    ShellScriptTask.run cmd r =
      if r.err ≠ "" ∨ r.returncode ≠ 0
      then Except.error (_create_message cmd r.out r.err r.returncode)
      else Except.ok true := by
  unfold ShellScriptTask.run _check_error
  by_cases hcond : r.err ≠ "" ∨ r.returncode ≠ 0
  · simp only [if_pos hcond]
  · simp only [if_neg hcond]
    push_neg at hcond
    simp only [if_pos hcond.1]

/-- C9: in `ShellScriptTask.run`, the success token is written iff the
command returned 0 with empty stderr; otherwise (non-zero return code or
non-empty stderr, including return code 0 with non-empty stderr) `run`
raises an error whose message carries the command, stdout, stderr and the
return code, and no success token is written. -/
theorem shell_success_gate (cmd : String) (r : ShellResult) :
    (ShellScriptTask.run cmd r = Except.ok true ↔ (r.returncode = 0 ∧ r.err = ""))
    ∧ ((r.returncode ≠ 0 ∨ r.err ≠ "") →
      ShellScriptTask.run cmd r = Except.error (_create_message cmd r.out r.err r.returncode)
      ∧ containsStr (_create_message cmd r.out r.err r.returncode) cmd
      ∧ containsStr (_create_message cmd r.out r.err r.returncode) (pyRepr r.out)
      ∧ containsStr (_create_message cmd r.out r.err r.returncode) (pyRepr r.err)
      ∧ containsStr (_create_message cmd r.out r.err r.returncode) (toString r.returncode)) := by
  constructor
  · rw [shellRun_eq]
    constructor
    · intro h
      by_cases hcond : r.err ≠ "" ∨ r.returncode ≠ 0
      · rw [if_pos hcond] at h
        exact absurd h (by simp)
      · push_neg at hcond
        exact ⟨hcond.2, hcond.1⟩
    · rintro ⟨hrc, he⟩
      rw [if_neg (by simp [he, hrc])]
  · intro h
    refine ⟨by rw [shellRun_eq, if_pos h.symm], ?_, ?_, ?_, ?_⟩
    · exact ⟨"" ++ "\n-----------------------------" ++ "\nCMD         : ",
        "\nSTDOUT      : " ++ pyRepr r.out ++ "\nSTDERR      : " ++ pyRepr r.err ++
          "\nRETURN CODE : " ++ toString r.returncode ++ "\n-----------------------------",
        by simp only [_create_message, String.append_assoc]⟩
    · exact ⟨"" ++ "\n-----------------------------" ++ "\nCMD         : " ++ cmd ++
          "\nSTDOUT      : ",
        "\nSTDERR      : " ++ pyRepr r.err ++ "\nRETURN CODE : " ++ toString r.returncode ++
          "\n-----------------------------",
        by simp only [_create_message, String.append_assoc]⟩
    · exact ⟨"" ++ "\n-----------------------------" ++ "\nCMD         : " ++ cmd ++
          "\nSTDOUT      : " ++ pyRepr r.out ++ "\nSTDERR      : ",
        "\nRETURN CODE : " ++ toString r.returncode ++ "\n-----------------------------",
        by simp only [_create_message, String.append_assoc]⟩
    · exact ⟨"" ++ "\n-----------------------------" ++ "\nCMD         : " ++ cmd ++
          "\nSTDOUT      : " ++ pyRepr r.out ++ "\nSTDERR      : " ++ pyRepr r.err ++
          "\nRETURN CODE : ",
        "\n-----------------------------",
        by simp only [_create_message, String.append_assoc]⟩

/-- C9 witness: a command with return code 0 but non-empty stderr raises
(carrying the diagnostics) and does not write the success token. -/
theorem shell_success_gate_witness :
    ((0 : Int) ≠ 0 ∨ ("e" : String) ≠ "") ∧
    (ShellScriptTask.run "ls" ⟨"o", "e", 0⟩ = Except.error (_create_message "ls" "o" "e" 0)
      ∧ containsStr (_create_message "ls" "o" "e" 0) "ls"
      ∧ containsStr (_create_message "ls" "o" "e" 0) (pyRepr "o")
      ∧ containsStr (_create_message "ls" "o" "e" 0) (pyRepr "e")
      ∧ containsStr (_create_message "ls" "o" "e" 0) (toString (0 : Int))) :=
  ⟨Or.inr (by decide), (shell_success_gate "ls" ⟨"o", "e", 0⟩).2 (Or.inr (by decide))⟩

/-- C10: whenever `_check_error` returns without raising, stderr is empty
and the return code is 0, so the `if err == ''` guard before the
success-token write always holds: every `ShellScriptTask.run` invocation
either raises or writes the success token — the branch that returns
normally without writing the token is unreachable. -/
theorem shell_run_always_raises_or_writes :
    (∀ (rc : Int) (err m : String), _check_error rc err m = Except.ok () → err = "" ∧ rc = 0)
    ∧ (∀ (cmd : String) (r : ShellResult),
        (∃ m, ShellScriptTask.run cmd r = Except.error m) ∨ ShellScriptTask.run cmd r = Except.ok true)
    ∧ ∀ (cmd : String) (r : ShellResult), ShellScriptTask.run cmd r ≠ Except.ok false := by
  refine ⟨?_, ?_, ?_⟩
  · intro rc err m h
    unfold _check_error at h
    by_cases he : err = ""
    · by_cases hrc : rc = 0
      · exact ⟨he, hrc⟩
      · rw [if_pos (Or.inr hrc)] at h
        exact absurd h (by simp)
    · rw [if_pos (Or.inl he)] at h
      exact absurd h (by simp)
  · intro cmd r
    simp only [shellRun_eq]
    by_cases hcond : r.err ≠ "" ∨ r.returncode ≠ 0
    · exact Or.inl ⟨_, by rw [if_pos hcond]⟩
    · exact Or.inr (by rw [if_neg hcond])
  · intro cmd r
    simp only [shellRun_eq]
    by_cases hcond : r.err ≠ "" ∨ r.returncode ≠ 0
    · rw [if_pos hcond]
      simp
    · rw [if_neg hcond]
      simp

/-- C10 witness: `_check_error` at return code 0 and empty stderr returns
normally, and the theorem recovers both facts from that. -/
theorem shell_run_always_raises_or_writes_witness :
    _check_error 0 "" "m" = Except.ok () ∧ (("" : String) = "" ∧ (0 : Int) = 0) :=
  ⟨by rfl, shell_run_always_raises_or_writes.1 0 "" "m" (by rfl)⟩

end MortarLuigi
